import Mathlib

/-!
Verification of the posts-dashboard frontend: a shallow embedding of its
validation utilities (src/utils/validation.js), API client
(src/services/api.js) and state hooks (the useApi hooks module), together
with theorems settling the specification claims about them.

JavaScript values relevant to this code base are modelled by `JSValue`
(the repository only manipulates strings, integers, booleans, null and
undefined in the places the claims touch; floating point never arises).
-/

/-- A JavaScript value, restricted to the shapes this code base passes around. -/
inductive JSValue where
  | nullV
  | undefinedV
  | boolV (b : Bool)
  | numV (n : Int)
  | strV (s : String)
deriving DecidableEq, Repr

/-- JavaScript falsiness (`!v`): null, undefined, false, 0 and "" are falsy. -/
def falsy : JSValue → Bool
  | .nullV => true
  | .undefinedV => true
  | .boolV b => !b
  | .numV n => n == 0
  | .strV s => s == ""

/-- JavaScript truthiness. -/
def truthy (v : JSValue) : Bool := !falsy v

/-- `typeof v === 'string'`. -/
def isString : JSValue → Bool
  | .strV _ => true
  | _ => false

/-- The string payload of a string value; only consulted after an `isString` guard. -/
def asString : JSValue → String
  | .strV s => s
  | _ => ""

/-- JavaScript `String(v)` on the modelled values. -/
def jsToString : JSValue → String
  | .nullV => "null"
  | .undefinedV => "undefined"
  | .boolV b => if b then "true" else "false"
  | .numV n => toString n
  | .strV s => s

/-- `ToNumber` on the modelled values (integer fragment; `none` plays NaN).
Strings are converted by the decimal-integer fragment of the JS rules:
a blank string is 0, otherwise an optional sign followed only by digits. -/
def toNumberOpt : JSValue → Option Int
  | .nullV => some 0
  | .undefinedV => none
  | .boolV b => some (if b then 1 else 0)
  | .numV n => some n
  | .strV s =>
    let t := s.data.dropWhile Char.isWhitespace |>.reverse.dropWhile Char.isWhitespace |>.reverse
    match t with
    | [] => some 0
    | '-' :: rest =>
      if rest ≠ [] ∧ rest.all Char.isDigit then
        some (-(rest.foldl (fun a c => a * 10 + (c.toNat - 48)) 0 : Nat))
      else none
    | '+' :: rest =>
      if rest ≠ [] ∧ rest.all Char.isDigit then
        some ((rest.foldl (fun a c => a * 10 + (c.toNat - 48)) 0 : Nat))
      else none
    | rest =>
      if rest.all Char.isDigit then
        some ((rest.foldl (fun a c => a * 10 + (c.toNat - 48)) 0 : Nat))
      else none

/-- JavaScript `v < k` for an integer literal `k`: convert and compare, with
NaN comparing false. -/
def jsLtInt (v : JSValue) (k : Int) : Bool :=
  match toNumberOpt v with
  | none => false
  | some n => n < k

/-- Trimming a character list at the front. -/
def trimLeftData (l : List Char) : List Char := l.dropWhile Char.isWhitespace

/-- `String.prototype.trim`: whitespace stripped from both ends, on the
character-list representation. -/
def jsTrimData (l : List Char) : List Char :=
  ((trimLeftData l).reverse.dropWhile Char.isWhitespace).reverse

/-- `s.trim()`. -/
def jsTrim (s : String) : String := ⟨jsTrimData s.data⟩

/-- `s.slice(0, n)`. -/
def jsSlice (s : String) (n : Nat) : String := ⟨s.data.take n⟩

/-! ## Constants (src/utils/constants.js) -/

def POST_TITLE_MAX_LENGTH : Nat := 255
def POST_BODY_MAX_LENGTH : Nat := 10000
def MIN_USER_ID : Int := 1
def DEFAULT_PAGE : Int := 1
def DEFAULT_LIMIT : Int := 6
def MAX_LIMIT : Int := 100

/-! ## Validation utilities (src/utils/validation.js) -/

/-- Result shape of `validatePostData`. -/
structure ValidationResult where
  isValid : Bool
  errors : List String
deriving DecidableEq, Repr

def titleRequiredMsg : String := "Title is required"
def titleTooLongMsg : String :=
  "Title must be " ++ toString POST_TITLE_MAX_LENGTH ++ " characters or less"
def bodyRequiredMsg : String := "Content is required"
def bodyTooLongMsg : String :=
  "Content must be " ++ toString POST_BODY_MAX_LENGTH ++ " characters or less"
def userIdMsg : String := "Valid user ID is required"

/-- `validatePostData(title, body, userId)` from src/utils/validation.js.
Each guard mirrors the source's short-circuiting condition; errors are
pushed title checks first, then body checks, then the user-id check. -/
def validatePostData (title bodyV userId : JSValue) : ValidationResult :=
  let titleErrs :=
    if falsy title || !isString title || jsTrim (asString title) == "" then
      [titleRequiredMsg]
    else if (asString title).length > POST_TITLE_MAX_LENGTH then
      [titleTooLongMsg]
    else []
  let bodyErrs :=
    if falsy bodyV || !isString bodyV || jsTrim (asString bodyV) == "" then
      [bodyRequiredMsg]
    else if (asString bodyV).length > POST_BODY_MAX_LENGTH then
      [bodyTooLongMsg]
    else []
  let userErrs :=
    if falsy userId || jsLtInt userId MIN_USER_ID then [userIdMsg] else []
  let errs := titleErrs ++ bodyErrs ++ userErrs
  ⟨errs.isEmpty, errs⟩

/-- `sanitizeInput(input)`: trimmed string, or empty for non-strings. -/
def sanitizeInput (input : JSValue) : String :=
  if !isString input then "" else jsTrim (asString input)

/-- `validateSearchTerm(searchTerm)`: empty on falsy or non-string input,
otherwise trimmed and cut to the first 100 characters. -/
def validateSearchTerm (searchTerm : JSValue) : String :=
  if falsy searchTerm || !isString searchTerm then ""
  else jsSlice (jsTrim (asString searchTerm)) 100

/-- `parseInt` on the modelled values: stringify, skip leading whitespace,
read an optional sign and then a longest prefix of decimal digits;
`none` plays NaN (no digits found). -/
def parseIntJS (v : JSValue) : Option Int :=
  let l := (jsToString v).data.dropWhile Char.isWhitespace
  let signed : Int × List Char :=
    match l with
    | '-' :: rest => (-1, rest)
    | '+' :: rest => (1, rest)
    | rest => (1, rest)
  let ds := signed.2.takeWhile Char.isDigit
  if ds.isEmpty then none
  else some (signed.1 * (ds.foldl (fun a c => a * 10 + (c.toNat - 48)) 0 : Nat))

/-- `x || d` where `x` is a `parseInt` result: NaN and 0 both give the default. -/
def numOrDefault (x : Option Int) (d : Int) : Int :=
  match x with
  | none => d
  | some n => if n = 0 then d else n

/-- `validatePaginationParams(page, limit)` from src/utils/validation.js:
`Math.max(1, parseInt(page) || DEFAULT_PAGE)` and
`Math.min(MAX_LIMIT, Math.max(1, parseInt(limit) || DEFAULT_LIMIT))`. -/
def validatePaginationParams (page limit : JSValue) : Int × Int :=
  let validPage := max 1 (numOrDefault (parseIntJS page) DEFAULT_PAGE)
  let validLimit := min MAX_LIMIT (max 1 (numOrDefault (parseIntJS limit) DEFAULT_LIMIT))
  (validPage, validLimit)

/-- Written from the claim's words, for comparison with the source function:
page is the integer coercion floored at 1 (default 1 when not parseable),
limit is the integer coercion clamped to [1, 100] (default 6 when not
parseable). -/
def claimedPaginationParams (page limit : JSValue) : Int × Int :=
  (match parseIntJS page with
   | none => 1
   | some n => max 1 n,
   match parseIntJS limit with
   | none => 6
   | some n => min 100 (max 1 n))

/-- The amended reading: the defaults also apply when the coercion yields 0,
because the source's `||` treats 0 like NaN. -/
def amendedPaginationParams (page limit : JSValue) : Int × Int :=
  (match parseIntJS page with
   | none => 1
   | some n => if n = 0 then 1 else max 1 n,
   match parseIntJS limit with
   | none => 6
   | some n => if n = 0 then 6 else min 100 (max 1 n))

/-! ## API client (src/services/api.js) -/

/-- A parsed JSON object body: property list with JS-value fields. -/
def JSObj : Type := List (String × JSValue)

instance : DecidableEq JSObj := by
  unfold JSObj
  infer_instance

/-- Property access `o.k`: the first binding, or `undefined` when absent. -/
def getProp (o : JSObj) (k : String) : JSValue :=
  match o.find? (fun p => p.1 == k) with
  | none => .undefinedV
  | some p => p.2

/-- The `ApiError` class: message, HTTP status (0 for network errors) and the
original response payload (`none` models the JS `null`). -/
structure ApiError where
  message : String
  status : Nat
  response : Option JSObj
deriving DecidableEq

/-- The outcome of `fetch` followed by `response.json()` as the code observes
it: either the fetch promise rejected (network failure, with the rejection's
message), or a response arrived carrying an HTTP status, a status text, and a
body that parsed to a JSON object or failed to parse (with the parse error's
message). -/
inductive FetchResult where
  | reject (msg : String)
  | resolved (status : Nat) (statusText : String) (body : Except String JSObj)

/-- `v || fallback` collapsed to a string, as the ApiError message is. -/
def jsOrString (v : JSValue) (fallback : String) : String :=
  if truthy v then jsToString v else fallback

/-- `error.message || 'Network error occurred'`. -/
def networkMsg (m : String) : String :=
  if m == "" then "Network error occurred" else m

/-- `response.ok`: status in the 2xx range. -/
def httpOk (status : Nat) : Bool := 200 ≤ status && status ≤ 299

/-- `apiRequest` from src/services/api.js, as a function of the fetch outcome:
a parsed 2xx body is returned; a parsed non-2xx body raises an ApiError with
the HTTP status, the body's `error` field (or the generic
`HTTP status: statusText` text when that field is falsy) and the body itself;
a rejection or parse failure raises an ApiError with status 0, the failure's
message (or a generic network message) and a null payload. -/
def apiRequest (r : FetchResult) : Except ApiError JSObj :=
  match r with
  | .reject msg => .error ⟨networkMsg msg, 0, none⟩
  | .resolved status statusText body =>
    match body with
    | .error msg => .error ⟨networkMsg msg, 0, none⟩
    | .ok data =>
      if !httpOk status then
        .error ⟨jsOrString (getProp data ("error"))
                  ("HTTP " ++ toString status ++ ": " ++ statusText),
                status, some data⟩
      else .ok data

/-- The payload of `posts.create`. -/
structure PostData where
  title : JSValue
  content : JSValue
  user_id : JSValue

/-- The payload of `posts.update`. -/
structure UpdateData where
  title : JSValue
  content : JSValue

/-- A network request an API method is about to issue (endpoint, HTTP verb and
serialized payload when present). Each `posts.*` method either fails fast with
an `ApiError` before touching the network or produces such a request. -/
inductive Request where
  | get (endpoint : String)
  | post (endpoint : String) (payload : PostData)
  | put (endpoint : String) (payload : UpdateData)
  | del (endpoint : String)

def idRequiredErr : ApiError := ⟨"Post ID is required", 400, none⟩

/-- `posts.getById(id)`: pre-flight check then the GET it would issue. -/
def postsGetById (id : JSValue) : Except ApiError Request :=
  if falsy id then .error idRequiredErr
  else .ok (.get ("/posts/" ++ jsToString id))

/-- `posts.create(postData)`: pre-flight check then the POST it would issue. -/
def postsCreate (postData : PostData) : Except ApiError Request :=
  if falsy postData.title || falsy postData.content || falsy postData.user_id then
    .error ⟨"Title, body, and user_id are required", 400, none⟩
  else .ok (.post ("/posts") postData)

/-- `posts.update(id, postData)`: pre-flight checks then the PUT. -/
def postsUpdate (id : JSValue) (postData : UpdateData) : Except ApiError Request :=
  if falsy id then .error idRequiredErr
  else if falsy postData.title || falsy postData.content then
    .error ⟨"Title and body are required", 400, none⟩
  else .ok (.put ("/posts/" ++ jsToString id) postData)

/-- `posts.delete(id)`: pre-flight check then the DELETE. -/
def postsDelete (id : JSValue) : Except ApiError Request :=
  if falsy id then .error idRequiredErr
  else .ok (.del ("/posts/" ++ jsToString id))

/-! ## Error normalization and the call-state hook (useApi hooks module) -/

/-- An error as caught in JS: an `ApiError`, or any other error with a message. -/
inductive JsError where
  | api (e : ApiError)
  | plain (message : String)
deriving DecidableEq

/-- The shape `handleApiError` returns. -/
structure ErrorInfo where
  message : String
  status : Nat
  isNetworkError : Bool
deriving DecidableEq

/-- `handleApiError(error)` from src/services/api.js. -/
def handleApiError : JsError → ErrorInfo
  | .api e => ⟨e.message, e.status, e.status == 0⟩
  | .plain m => ⟨if m == "" then "An unexpected error occurred" else m, 500, false⟩

/-- The state a `useApiCall` instance owns: `loading` and `error`
(`none` models the JS `null`). -/
structure CallState where
  loading : Bool
  callErr : Option String
deriving DecidableEq

/-- `useState(false)` / `useState(null)`: the hook's initial state. -/
def initialCallState : CallState := ⟨false, none⟩

/-- One React state update issued by the hook. -/
inductive StateOp where
  | setLoading (b : Bool)
  | setErr (e : Option String)
deriving DecidableEq

/-- Applying one state update. -/
def applyOp (s : CallState) : StateOp → CallState
  | .setLoading b => { s with loading := b }
  | .setErr e => { s with callErr := e }

/-- Applying a sequence of state updates in order. -/
def applyOps (s : CallState) (ops : List StateOp) : CallState :=
  ops.foldl applyOp s

/-- `execute(apiCall)` as the sequence of state updates it issues and the
value it returns or re-raises, as a function of the operation's settled
outcome. The source order is: `setLoading(true)`, `setError(null)`, await the
operation; on failure `setError(message)` in the catch; `setLoading(false)`
in the finally; success returns the result, failure re-throws the original
error. The first two updates always precede the operation. -/
def executeTrace {α : Type} (outcome : Except JsError α) :
    List StateOp × Except JsError α :=
  match outcome with
  | .ok a =>
    ([.setLoading true, .setErr none, .setLoading false], .ok a)
  | .error e =>
    ([.setLoading true, .setErr none,
      .setErr (some (handleApiError e).message), .setLoading false],
     .error e)

/-- `clearError()`: reset the error state. -/
def clearErrorUpdate (s : CallState) : CallState := { s with callErr := none }

/-! ## Posts hook state (usePostsApi) -/

/-- A post record as the backend returns it. -/
structure Post where
  id : Int
  title : String
  content : String
  user_id : Int
deriving DecidableEq, Repr

/-- Pagination metadata as the backend returns it. -/
structure Pagination where
  currentPage : Int
  totalPages : Int
  totalItems : Int
  hasNextPage : Bool
  hasPrevPage : Bool
deriving DecidableEq, Repr

/-- The list state a `usePostsApi` instance owns; `none` for pagination models
the initial / fallback `{}`. -/
structure PostsState where
  posts : List Post
  pagination : Option Pagination
deriving DecidableEq, Repr

/-- The `data` part of a successful `getAll` envelope; absent fields are `none`. -/
structure FetchData where
  posts : Option (List Post)
  pagination : Option Pagination
deriving DecidableEq

/-- The `getAll` response envelope as `fetchPosts` reads it. -/
structure FetchEnvelope where
  success : Bool
  data : FetchData
deriving DecidableEq

/-- The state update `fetchPosts` performs, as a function of the settled
outcome of `execute(() => postsApi.getAll(params))`: if the call threw, the
statements after the await never run; a falsy (null) response body or a
non-success envelope also leaves the state alone; otherwise the posts list is
overwritten with `response.data.posts || []` and the pagination with
`response.data.pagination || {}`. -/
def fetchPostsUpdate (s : PostsState) (outcome : Except JsError (Option FetchEnvelope)) :
    PostsState :=
  match outcome with
  | .error _ => s
  | .ok none => s
  | .ok (some r) =>
    if r.success then ⟨r.data.posts.getD [], r.data.pagination⟩ else s

/-- The delete response envelope as `deletePost` reads it. -/
structure DeleteResp where
  success : Bool
deriving DecidableEq

/-- The state update `deletePost(id)` performs, as a function of the settled
outcome of `execute(() => postsApi.delete(id))`: on a thrown error nothing
runs; on a success envelope the posts list is filtered by
`post.id !== id`; pagination is never touched. -/
def deletePostUpdate (s : PostsState) (id : Int)
    (outcome : Except JsError DeleteResp) : PostsState :=
  match outcome with
  | .error _ => s
  | .ok r =>
    if r.success then { s with posts := s.posts.filter (fun p => p.id != id) } else s

/-! ## Helper lemmas about trimming -/

theorem dropWhile_dropWhile_self {α : Type} (p : α → Bool) (l : List α) :
    (l.dropWhile p).dropWhile p = l.dropWhile p := by
  induction l with
  | nil => rfl
  | cons a l ih =>
    by_cases h : p a
    · simpa [List.dropWhile_cons, h] using ih
    · simp [List.dropWhile_cons, h]

theorem head?_of_append_ne_nil {α : Type} (l t : List α) (h : l ≠ []) :
    (l ++ t).head? = l.head? := by
  cases l with
  | nil => exact absurd rfl h
  | cons a l => rfl

theorem dropWhile_eq_self_of_head? {α : Type} (p : α → Bool) (l : List α)
    (h : ∀ a, l.head? = some a → p a = false) : l.dropWhile p = l := by
  cases l with
  | nil => rfl
  | cons a l => simp [List.dropWhile_cons, h a rfl]

/-- The result of a two-sided trim never starts with whitespace. -/
theorem jsTrimData_head? (l : List Char) (c : Char)
    (h : (jsTrimData l).head? = some c) : c.isWhitespace = false := by
  unfold jsTrimData at h
  rcases he : (trimLeftData l).reverse.dropWhile Char.isWhitespace with _ | ⟨a, m⟩
  · rw [he] at h
    simp at h
  · -- the trimmed list is a nonempty suffix-reversal, i.e. a prefix of the
    -- left-trimmed list, whose head is not whitespace
    have hsuf : (trimLeftData l).reverse.dropWhile Char.isWhitespace <:+ (trimLeftData l).reverse :=
      List.dropWhile_suffix Char.isWhitespace
    rw [he] at hsuf h
    obtain ⟨t, ht⟩ := hsuf
    have hpref : (a :: m).reverse ++ t.reverse = trimLeftData l := by
      have := congrArg List.reverse ht
      simpa [List.reverse_append] using this
    have hh : (trimLeftData l).head? = some c := by
      rw [← hpref, head?_of_append_ne_nil _ _ (by simp), ← h]
    have := List.head?_dropWhile_not Char.isWhitespace l
    unfold trimLeftData at hh
    rw [hh] at this
    exact this

/-- The result of a two-sided trim never ends with whitespace. -/
theorem jsTrimData_reverse_head? (l : List Char) (c : Char)
    (h : (jsTrimData l).reverse.head? = some c) : c.isWhitespace = false := by
  unfold jsTrimData at h
  rw [List.reverse_reverse] at h
  have := List.head?_dropWhile_not Char.isWhitespace (trimLeftData l).reverse
  rw [h] at this
  exact this

/-- Trimming is idempotent on character lists. -/
theorem jsTrimData_idempotent (l : List Char) : jsTrimData (jsTrimData l) = jsTrimData l := by
  have h1 : trimLeftData (jsTrimData l) = jsTrimData l := by
    unfold trimLeftData
    exact dropWhile_eq_self_of_head? _ _ (fun a ha => jsTrimData_head? l a ha)
  have h2 : (jsTrimData l).reverse.dropWhile Char.isWhitespace = (jsTrimData l).reverse := by
    exact dropWhile_eq_self_of_head? _ _ (fun a ha => jsTrimData_reverse_head? l a ha)
  set m := jsTrimData l with hm
  show jsTrimData m = m
  unfold jsTrimData
  rw [h1, h2, List.reverse_reverse]

set_option maxRecDepth 4000

theorem jsTrim_empty : jsTrim ("") = "" := rfl

theorem jsTrim_idempotent (s : String) : jsTrim (jsTrim s) = jsTrim s :=
  congrArg String.mk (jsTrimData_idempotent s.data)

/-! ## Claim theorems -/

/-- Claim C10: `sanitizeInput` is idempotent — feeding its result back in
returns it unchanged — and its result is always a string: the trimmed input
for string inputs and the empty string for every non-string input. -/
theorem sanitizeInput_spec (v : JSValue) :
    sanitizeInput (.strV (sanitizeInput v)) = sanitizeInput v
    ∧ (∀ s : String, sanitizeInput (.strV s) = jsTrim s)
    ∧ (∀ w : JSValue, isString w = false → sanitizeInput w = "") := by
  refine ⟨?_, fun s => rfl, fun w hw => by simp [sanitizeInput, hw]⟩
  cases v with
  | strV s => simpa [sanitizeInput, isString, asString] using jsTrim_idempotent s
  | nullV => simp [sanitizeInput, isString, asString, jsTrim_empty]
  | undefinedV => simp [sanitizeInput, isString, asString, jsTrim_empty]
  | boolV b => simp [sanitizeInput, isString, asString, jsTrim_empty]
  | numV n => simp [sanitizeInput, isString, asString, jsTrim_empty]

/-- Witness for C10 at concrete inputs. -/
theorem sanitizeInput_spec_witness :
    sanitizeInput (.strV (sanitizeInput (.numV 5))) = sanitizeInput (.numV 5)
    ∧ sanitizeInput .nullV = "" :=
  ⟨(sanitizeInput_spec (.numV 5)).1,
   (sanitizeInput_spec (.numV 5)).2.2 .nullV (by decide)⟩

/-- Claim C9: `validateSearchTerm` trims the input and truncates it to its
first 100 characters, returns the empty string on non-string or falsy input,
never returns more than 100 characters, and on the string of 150 `x`s the
result has length exactly 100. -/
theorem validateSearchTerm_spec (s : String) (w : JSValue)
    (hs : s ≠ "") (hw : falsy w = true ∨ isString w = false) :
    validateSearchTerm (.strV s) = jsSlice (jsTrim s) 100
    ∧ validateSearchTerm w = ""
    ∧ (∀ v : JSValue, (validateSearchTerm v).length ≤ 100)
    ∧ (validateSearchTerm (.strV ⟨List.replicate 150 'x'⟩)).length = 100 := by
  refine ⟨?_, ?_, ?_, by decide⟩
  · simp [validateSearchTerm, falsy, isString, asString, hs]
  · rcases hw with h | h
    · simp [validateSearchTerm, h]
    · cases w <;> simp_all [validateSearchTerm, isString, falsy]
  · intro v
    cases v with
    | strV t =>
      by_cases h : t = ""
      · simp [validateSearchTerm, falsy, h]
      · simp only [validateSearchTerm, falsy, isString, asString]
        rw [if_neg (by simp [h])]
        show ((jsTrim t).data.take 100).length ≤ 100
        simp
    | nullV => simp [validateSearchTerm, falsy]
    | undefinedV => simp [validateSearchTerm, falsy]
    | boolV b => simp [validateSearchTerm, isString, falsy]
    | numV n => simp [validateSearchTerm, isString, falsy]

/-- Witness for C9 at concrete inputs. -/
theorem validateSearchTerm_spec_witness :
    validateSearchTerm (.strV ("  a  ")) = jsSlice (jsTrim ("  a  ")) 100
    ∧ validateSearchTerm .nullV = "" := by
  have h := validateSearchTerm_spec ("  a  ") .nullV (by decide) (Or.inl (by decide))
  exact ⟨h.1, h.2.1⟩

/-- Claim C4: for every non-blank title of at most 255 characters, non-blank
body of at most 10000 characters and user id at least 1, `validatePostData`
returns `isValid = true` with no errors; and on every input the error list is
the title errors, then the body errors, then the user-id errors. -/
theorem validatePostData_spec (t b : String) (n : Int)
    (ht : jsTrim t ≠ "") (htl : t.length ≤ 255)
    (hb : jsTrim b ≠ "") (hbl : b.length ≤ 10000)
    (hn : 1 ≤ n) :
    validatePostData (.strV t) (.strV b) (.numV n) = ⟨true, []⟩
    ∧ (∀ title bodyV userId : JSValue, ∃ ts bs us : List String,
        (validatePostData title bodyV userId).errors = ts ++ bs ++ us
        ∧ ts ⊆ [titleRequiredMsg, titleTooLongMsg]
        ∧ bs ⊆ [bodyRequiredMsg, bodyTooLongMsg]
        ∧ us ⊆ [userIdMsg]) := by
  constructor
  · have ht0 : t ≠ "" := fun h => ht (by rw [h]; rfl)
    have hb0 : b ≠ "" := fun h => hb (by rw [h]; rfl)
    have hn0 : ¬ (n = 0) := by omega
    have hlt : ¬ (n < MIN_USER_ID) := by simp only [MIN_USER_ID]; omega
    simp [validatePostData, falsy, isString, asString, jsLtInt, toNumberOpt,
          POST_TITLE_MAX_LENGTH, POST_BODY_MAX_LENGTH,
          ht0, hb0, ht, hb, hn0, hlt, Nat.not_lt.mpr htl, Nat.not_lt.mpr hbl]
  · intro title bodyV userId
    refine ⟨_, _, _, rfl, ?_, ?_, ?_⟩
    · dsimp only
      split
      · simp
      · split <;> simp
    · dsimp only
      split
      · simp
      · split <;> simp
    · dsimp only
      split <;> simp

/-- Witness for C4 at a concrete valid input. -/
theorem validatePostData_spec_witness :
    validatePostData (.strV ("T")) (.strV ("B")) (.numV 1) = ⟨true, []⟩ :=
  (validatePostData_spec ("T") ("B") 1 (by decide) (by decide) (by decide)
    (by decide) (by decide)).1

/-- Counterexample for claim C8 as stated: a title of 256 blank characters has
length 256, yet validation reports only the requiredness error — no error in
the list mentions the 255-character limit. -/
theorem validatePostData_len256_counterexample :
    (⟨List.replicate 256 ' '⟩ : String).length = 256
    ∧ (validatePostData (.strV ⟨List.replicate 256 ' '⟩) (.strV ("B")) (.numV 1)).errors
        = [titleRequiredMsg]
    ∧ (∀ e ∈ (validatePostData (.strV ⟨List.replicate 256 ' '⟩) (.strV ("B"))
          (.numV 1)).errors, ¬ List.IsInfix ("255").data e.data) := by
  refine ⟨by decide, by decide, ?_⟩
  intro e he
  have : e = titleRequiredMsg := by
    have h2 : (validatePostData (.strV ⟨List.replicate 256 ' '⟩) (.strV ("B"))
        (.numV 1)).errors = [titleRequiredMsg] := by decide
    rw [h2] at he
    simpa using he
  rw [this]
  decide

/-- Claim C8 amended: for every string title of length 256 that is not blank
(all-whitespace titles instead produce only the requiredness error),
`validatePostData` returns `isValid = false` and the error list contains the
message naming the 255-character limit. -/
theorem validatePostData_len256_amended (t : String) (bodyV userId : JSValue)
    (ht : jsTrim t ≠ "") (hl : t.length = 256) :
    (validatePostData (.strV t) bodyV userId).isValid = false
    ∧ titleTooLongMsg ∈ (validatePostData (.strV t) bodyV userId).errors := by
  have ht0 : t ≠ "" := fun h => ht (by rw [h]; rfl)
  constructor
  · simp [validatePostData, falsy, isString, asString, ht0, ht, hl, POST_TITLE_MAX_LENGTH]
  · simp [validatePostData, falsy, isString, asString, ht0, ht, hl, POST_TITLE_MAX_LENGTH]

/-- Witness for the amended C8 at a concrete input. -/
theorem validatePostData_len256_amended_witness :
    (validatePostData (.strV ⟨List.replicate 256 'x'⟩) (.strV ("B"))
        (.numV 1)).isValid = false
    ∧ titleTooLongMsg ∈ (validatePostData (.strV ⟨List.replicate 256 'x'⟩)
        (.strV ("B")) (.numV 1)).errors :=
  validatePostData_len256_amended ⟨List.replicate 256 'x'⟩ (.strV ("B")) (.numV 1)
    (by decide) (by decide)

/-- Counterexample for claim C7 as stated: the limit input "0" is parseable,
so the claimed clamp-to-[1,100] reading predicts a limit of 1, but the source's
`parseInt(limit) || DEFAULT_LIMIT` treats the parsed 0 as missing and the
function returns the default limit 6. -/
theorem validatePaginationParams_counterexample :
    claimedPaginationParams (.strV ("1")) (.strV ("0")) = (1, 1)
    ∧ validatePaginationParams (.strV ("1")) (.strV ("0")) = (1, 6) := by
  constructor
  · rfl
  · rfl

/-- Claim C7 amended: `validatePaginationParams` returns the page coerced to
an integer and floored at 1 — defaulting to 1 when not parseable or when the
coercion yields 0 — and the limit coerced and clamped to [1, 100] — defaulting
to 6 when not parseable or when the coercion yields 0; in particular
("-5", "9999") gives (1, 100) and ("abc", "abc") gives (1, 6). -/
theorem validatePaginationParams_amended (page limit : JSValue) :
    validatePaginationParams page limit = amendedPaginationParams page limit
    ∧ validatePaginationParams (.strV ("-5")) (.strV ("9999")) = (1, 100)
    ∧ validatePaginationParams (.strV ("abc")) (.strV ("abc")) = (1, 6) := by
  refine ⟨?_, rfl, rfl⟩
  unfold validatePaginationParams amendedPaginationParams numOrDefault
  unfold DEFAULT_PAGE DEFAULT_LIMIT MAX_LIMIT
  rcases parseIntJS page with _ | n <;> rcases parseIntJS limit with _ | m <;>
    simp only [Prod.mk.injEq]
  · exact ⟨rfl, rfl⟩
  · refine ⟨rfl, ?_⟩
    by_cases hm : m = 0 <;> simp [hm]
  · refine ⟨?_, rfl⟩
    by_cases hn : n = 0 <;> simp [hn]
  · constructor
    · by_cases hn : n = 0 <;> simp [hn]
    · by_cases hm : m = 0 <;> simp [hm]

/-- Claim C1 (amended form): for every non-2xx response whose body parsed,
`apiRequest` raises an `ApiError` carrying the HTTP status and the parsed
body, with message equal to the body's `error` field when that field is
truthy and the generic `HTTP status: statusText` text when the field is
absent or falsy; and for every rejected fetch and every body that fails to
parse it raises an `ApiError` with status 0 and a null response payload. -/
theorem apiRequest_error_spec (status : Nat) (statusText msg : String) (data : JSObj)
    (h : httpOk status = false) :
    (∃ e : ApiError, apiRequest (.resolved status statusText (.ok data)) = .error e
      ∧ e.status = status ∧ e.response = some data
      ∧ (truthy (getProp data ("error")) = true →
          e.message = jsToString (getProp data ("error")))
      ∧ (truthy (getProp data ("error")) = false →
          e.message = "HTTP " ++ toString status ++ ": " ++ statusText))
    ∧ (∃ e : ApiError, apiRequest (.reject msg) = .error e
        ∧ e.status = 0 ∧ e.response = none)
    ∧ (∃ e : ApiError, apiRequest (.resolved status statusText (.error msg)) = .error e
        ∧ e.status = 0 ∧ e.response = none) := by
  refine ⟨⟨⟨jsOrString (getProp data ("error"))
      ("HTTP " ++ toString status ++ ": " ++ statusText), status, some data⟩,
      ?_, rfl, rfl, ?_, ?_⟩,
    ⟨⟨networkMsg msg, 0, none⟩, rfl, rfl, rfl⟩,
    ⟨⟨networkMsg msg, 0, none⟩, rfl, rfl, rfl⟩⟩
  · simp [apiRequest, h]
  · intro htru
    simp [jsOrString, htru]
  · intro hfls
    simp [jsOrString, hfls]

/-- Witness for C1 at concrete inputs: a 404 whose body carries
`error: "not found"`, a rejected fetch, and an unparseable body. -/
theorem apiRequest_error_spec_witness :
    apiRequest (.resolved 404 ("Not Found") (.ok [(("error"), .strV ("not found"))]))
      = .error ⟨"not found", 404, some [(("error"), .strV ("not found"))]⟩
    ∧ apiRequest (.reject ("Failed to fetch")) = .error ⟨"Failed to fetch", 0, none⟩ := by
  have h := apiRequest_error_spec 404 ("Not Found") ("Failed to fetch")
    [(("error"), .strV ("not found"))] (by decide)
  obtain ⟨⟨e1, he1, hs1, hr1, ht1, _⟩, ⟨e2, he2, hs2, hr2⟩, _⟩ := h
  constructor
  · rw [he1]
    have hm : e1.message = "not found" := by
      have := ht1 (by decide)
      simpa using this
    cases e1
    simp_all
  · rw [he2]
    have hm : e2.message = "Failed to fetch" := by
      have : apiRequest (.reject ("Failed to fetch"))
          = .error ⟨"Failed to fetch", 0, none⟩ := rfl
      rw [this] at he2
      cases he2
      rfl
    cases e2
    simp_all

/-- Counterexample for claim C1 as stated: on a 404 whose parsed body carries
an `error` field that is present but an empty string, the claimed reading
makes the message that field's value, yet `data.error || fallback` treats
the empty string as absent and the raised error carries the generic text. -/
theorem apiRequest_counterexample :
    getProp [(("error"), .strV (""))] ("error") = .strV ("")
    ∧ apiRequest (.resolved 404 ("Not Found") (.ok [(("error"), .strV (""))]))
        = .error ⟨"HTTP 404: Not Found", 404, some [(("error"), .strV (""))]⟩
    ∧ ("HTTP 404: Not Found" : String)
        ≠ jsToString (getProp [(("error"), .strV (""))] ("error")) := by
  exact ⟨rfl, rfl, by decide⟩

/-- Claim C5: with a falsy id, `posts.getById`, `posts.update` and
`posts.delete` reject with a status-400 `ApiError` instead of producing a
network request; and `posts.create` does the same whenever the payload's
title, body or user_id is falsy. -/
theorem postsMethods_failFast (id : JSValue) (d : PostData) (u : UpdateData)
    (hid : falsy id = true)
    (hd : falsy d.title = true ∨ falsy d.content = true ∨ falsy d.user_id = true) :
    (∃ e : ApiError, postsGetById id = .error e ∧ e.status = 400)
    ∧ (∃ e : ApiError, postsUpdate id u = .error e ∧ e.status = 400)
    ∧ (∃ e : ApiError, postsDelete id = .error e ∧ e.status = 400)
    ∧ (∃ e : ApiError, postsCreate d = .error e ∧ e.status = 400) := by
  refine ⟨⟨idRequiredErr, ?_, rfl⟩, ⟨idRequiredErr, ?_, rfl⟩,
    ⟨idRequiredErr, ?_, rfl⟩, ⟨⟨"Title, body, and user_id are required", 400, none⟩, ?_, rfl⟩⟩
  · simp [postsGetById, hid]
  · simp [postsUpdate, hid]
  · simp [postsDelete, hid]
  · have : (falsy d.title || falsy d.content || falsy d.user_id) = true := by
      rcases hd with h | h | h <;> simp [h]
    simp [postsCreate, this]

/-- Witness for C5 at concrete inputs: a null id and a payload with no title. -/
theorem postsMethods_failFast_witness :
    (∃ e : ApiError, postsGetById .nullV = .error e ∧ e.status = 400)
    ∧ (∃ e : ApiError, postsUpdate .nullV ⟨.strV ("t"), .strV ("b")⟩ = .error e
        ∧ e.status = 400)
    ∧ (∃ e : ApiError, postsDelete .nullV = .error e ∧ e.status = 400)
    ∧ (∃ e : ApiError, postsCreate ⟨.undefinedV, .strV ("b"), .numV 1⟩ = .error e
        ∧ e.status = 400) :=
  postsMethods_failFast .nullV ⟨.undefinedV, .strV ("b"), .numV 1⟩
    ⟨.strV ("t"), .strV ("b")⟩ (by decide) (Or.inl (by decide))

/-- Claim C2: `execute` sets loading to true and error to null before the
operation runs (the first two state updates of its trace); after settlement
loading is false in both the success and the failure trace, and loading
starts out false, so it is true only strictly between call start and
settlement; on success the operation's result is returned and the error
stays clear; on failure the message derived by `handleApiError` is stored
and the original error is re-raised; `clearError` resets the error to null
and leaves loading untouched. -/
theorem useApiCall_execute_spec {α : Type} (s : CallState)
    (okOut errOut : Except JsError α) (a : α) (e : JsError)
    (hok : okOut = .ok a) (herr : errOut = .error e) :
    initialCallState.loading = false
    ∧ (applyOps s ((executeTrace okOut).1.take 2)).loading = true
    ∧ (applyOps s ((executeTrace okOut).1.take 2)).callErr = none
    ∧ (applyOps s ((executeTrace errOut).1.take 2)).loading = true
    ∧ (applyOps s ((executeTrace errOut).1.take 2)).callErr = none
    ∧ (applyOps s (executeTrace okOut).1).loading = false
    ∧ (applyOps s (executeTrace errOut).1).loading = false
    ∧ (executeTrace okOut).2 = .ok a
    ∧ (applyOps s (executeTrace okOut).1).callErr = none
    ∧ (executeTrace errOut).2 = .error e
    ∧ (applyOps s (executeTrace errOut).1).callErr = some (handleApiError e).message
    ∧ (clearErrorUpdate s).callErr = none
    ∧ (clearErrorUpdate s).loading = s.loading := by
  subst hok herr
  simp [executeTrace, applyOps, applyOp, clearErrorUpdate, initialCallState]

/-- Witness for C2 at a concrete success and a concrete failure. -/
theorem useApiCall_execute_spec_witness :
    (applyOps initialCallState ((executeTrace (Except.ok (0 : Nat))).1.take 2)).loading = true
    ∧ (applyOps initialCallState
        (executeTrace (Except.error (α := Nat) (JsError.plain ("boom")))).1).callErr
      = some (handleApiError (JsError.plain ("boom"))).message := by
  have h := useApiCall_execute_spec initialCallState (Except.ok (0 : Nat))
    (Except.error (JsError.plain ("boom"))) 0 (JsError.plain ("boom")) rfl rfl
  obtain ⟨-, h2, -, -, -, -, -, -, -, -, h11, -, -⟩ := h
  exact ⟨h2, h11⟩

/-- Claim C3: a successful `deletePost(id)` removes from the hook's local
posts list exactly the entries whose id equals the given id, keeps the
surviving entries in their original relative order (the new list is a
sublist of the old), and never touches the pagination metadata, whatever
the outcome. -/
theorem deletePost_spec (s : PostsState) (id : Int)
    (outcome : Except JsError DeleteResp) (r : DeleteResp)
    (ho : outcome = .ok r) (hs : r.success = true) :
    (∀ p : Post, p ∈ (deletePostUpdate s id outcome).posts ↔ p ∈ s.posts ∧ p.id ≠ id)
    ∧ (deletePostUpdate s id outcome).posts.Sublist s.posts
    ∧ (∀ out : Except JsError DeleteResp,
        (deletePostUpdate s id out).pagination = s.pagination) := by
  subst ho
  refine ⟨?_, ?_, ?_⟩
  · intro p
    simp [deletePostUpdate, hs, List.mem_filter]
  · simp only [deletePostUpdate, hs, if_true]
    exact List.filter_sublist s.posts
  · intro out
    rcases out with e | r2
    · rfl
    · by_cases h2 : r2.success = true <;> simp [deletePostUpdate, h2]

/-- Witness for C3 on a concrete two-post state. -/
theorem deletePost_spec_witness :
    (⟨2, "c", "d", 1⟩ : Post)
      ∈ (deletePostUpdate ⟨[⟨1, "a", "b", 1⟩, ⟨2, "c", "d", 1⟩], none⟩ 1
          (.ok ⟨true⟩)).posts
    ∧ ¬ ((⟨1, "a", "b", 1⟩ : Post)
      ∈ (deletePostUpdate ⟨[⟨1, "a", "b", 1⟩, ⟨2, "c", "d", 1⟩], none⟩ 1
          (.ok ⟨true⟩)).posts)
    ∧ (deletePostUpdate ⟨[⟨1, "a", "b", 1⟩, ⟨2, "c", "d", 1⟩], none⟩ 1
        (.ok ⟨true⟩)).pagination = none := by
  have h := deletePost_spec ⟨[⟨1, "a", "b", 1⟩, ⟨2, "c", "d", 1⟩], none⟩ 1
    (.ok ⟨true⟩) ⟨true⟩ rfl rfl
  refine ⟨(h.1 ⟨2, "c", "d", 1⟩).mpr ⟨by simp, by decide⟩, ?_, h.2.2 (.ok ⟨true⟩)⟩
  intro hmem
  exact absurd ((h.1 ⟨1, "a", "b", 1⟩).mp hmem).2 (by simp)

/-- Claim C6: `fetchPosts` leaves both the posts list and the pagination
metadata exactly as they were whenever the underlying call throws, and on a
success envelope overwrites the posts list with the response's posts (empty
list when absent) and the pagination with the response's pagination. -/
theorem fetchPosts_spec (s : PostsState)
    (failOut okOut : Except JsError (Option FetchEnvelope))
    (e : JsError) (r : FetchEnvelope)
    (hf : failOut = .error e) (ho : okOut = .ok (some r)) (hs : r.success = true) :
    fetchPostsUpdate s failOut = s
    ∧ (fetchPostsUpdate s okOut).posts = r.data.posts.getD []
    ∧ (fetchPostsUpdate s okOut).pagination = r.data.pagination := by
  subst hf ho
  refine ⟨rfl, ?_, ?_⟩ <;> simp [fetchPostsUpdate, hs]

/-- Witness for C6 on a concrete prior state, failure and success envelope. -/
theorem fetchPosts_spec_witness :
    fetchPostsUpdate ⟨[⟨1, "a", "b", 1⟩], some ⟨1, 1, 1, false, false⟩⟩
        (.error (.plain ("down")))
      = ⟨[⟨1, "a", "b", 1⟩], some ⟨1, 1, 1, false, false⟩⟩
    ∧ (fetchPostsUpdate ⟨[⟨1, "a", "b", 1⟩], some ⟨1, 1, 1, false, false⟩⟩
        (.ok (some ⟨true, ⟨some [⟨2, "c", "d", 1⟩], none⟩⟩))).posts = [⟨2, "c", "d", 1⟩] := by
  have h := fetchPosts_spec ⟨[⟨1, "a", "b", 1⟩], some ⟨1, 1, 1, false, false⟩⟩
    (.error (.plain ("down")))
    (.ok (some ⟨true, ⟨some [⟨2, "c", "d", 1⟩], none⟩⟩))
    (.plain ("down")) ⟨true, ⟨some [⟨2, "c", "d", 1⟩], none⟩⟩ rfl rfl rfl
  exact ⟨h.1, h.2.1⟩
